import Mathlib

/-!
Shallow embedding of `checkmk-matrix-notify.py`, a CheckMK → Matrix notification
forwarder, together with proofs about its behaviour.

The script reads `NOTIFY_*` environment variables, builds a plain-text and an
HTML message, and issues one HTTP PUT to a Matrix homeserver.  Environment
access is modelled by a structure with one `Option String` field per variable
the script reads (`none` = unset).  The HTTP transport is modelled by an
explicit outcome value covering the exception hierarchy the script catches.
Machine randomness (for the UUID transaction id) is modelled by a `Nat`
parameter holding the 128 random bits.

Note: `str.upper()` is modelled as ASCII uppercasing (`Char.toUpper`), which
agrees with Python on all ASCII inputs; the script only compares the result
against the ASCII literal `"SERVICE"`.
-/

namespace CheckmkMatrixNotify

/-- The process environment, restricted to the variables the script reads.
`none` models an unset variable, `some s` a variable set to the string `s`. -/
structure Env where
  notify_what : Option String
  notify_notificationtype : Option String
  notify_hostname : Option String
  omd_site : Option String
  notify_shortdatetime : Option String
  notify_serviceshortstate : Option String
  notify_previousservicehardshortstate : Option String
  notify_serviceoutput : Option String
  notify_servicedesc : Option String
  notify_hostshortstate : Option String
  notify_previoushosthardshortstate : Option String
  notify_hostoutput : Option String
  notify_parameter_1 : Option String
  notify_parameter_2 : Option String
  notify_parameter_3 : Option String
deriving DecidableEq

/-- The environment with every variable unset. -/
def Env.empty : Env :=
  ⟨none, none, none, none, none, none, none, none, none, none, none, none,
   none, none, none⟩

/-- Source `REQUEST_TIMEOUT = 15` (seconds). -/
def REQUEST_TIMEOUT : Nat := 15

/-- Source `EXIT_SUCCESS = 0`. -/
def EXIT_SUCCESS : Nat := 0

/-- Source `EXIT_RETRY = 1` (CheckMK will retry the notification). -/
def EXIT_RETRY : Nat := 1

/-- Source `EXIT_FAILED = 2` (CheckMK will not retry). -/
def EXIT_FAILED : Nat := 2

/-- Source `STATE_EMOJIS`: the emoji lookup table, as an association list mirroring
the Python dict (insertion order preserved).  Note the values for `WARN`
carry a trailing space and a variation selector, exactly as in the source. -/
def STATE_EMOJIS : List (String × String) :=
  [("OK", "✅"),
   ("UP", "✅"),
   ("WARN", "⚠️ "),
   ("CRIT", "🚨"),
   ("DOWN", "🚨"),
   ("UNKNOWN", "❔")]

/-- Source `get_env(name, default)`: the script reads `os.environ.get(name, default)`.
The environment lookup is passed in as the `Option String` value of the
variable. -/
def get_env (v : Option String) (d : String) : String := v.getD d

/-- Source `get_required_env(name)`: returns the value, or an error (the stderr
diagnostic line) when the variable is unset or set to the empty string
(Python `if not value:` is true for both `None` and `""`). -/
def get_required_env (name : String) (v : Option String) : Except String String :=
  match v with
  | none => Except.error ("ERROR: Missing required environment variable: " ++ name)
  | some s =>
    if s = "" then Except.error ("ERROR: Missing required environment variable: " ++ name)
    else Except.ok s

/-- Source `get_emoji(state)`: `STATE_EMOJIS.get(state, "ℹ️ ")` — dict lookup with a
default (the default also carries a trailing space in the source). -/
def get_emoji (state : String) : String :=
  (STATE_EMOJIS.lookup state).getD "ℹ️ "

/-- Python `str.upper()`, restricted to ASCII case mapping (see module
header); written via `List.map` on the character list (the semantics of
`String.map`). -/
def pyUpper (s : String) : String := ⟨s.data.map Char.toUpper⟩

/-- Python `sep.join(strs)`. -/
def pyJoin (sep : String) : List String → String
  | [] => ""
  | [x] => x
  | x :: y :: xs => x ++ sep ++ pyJoin sep (y :: xs)

/-- Source `what = get_env("NOTIFY_WHAT", "HOST").upper()`. -/
def what (env : Env) : String := pyUpper (get_env env.notify_what "HOST")

/-- Source `is_service = (what == "SERVICE")`. -/
def is_service (env : Env) : Bool := what env == "SERVICE"

/-- Source `notification_type = get_env("NOTIFY_NOTIFICATIONTYPE")`. -/
def notification_type (env : Env) : String := get_env env.notify_notificationtype ""

/-- Source `hostname = get_env("NOTIFY_HOSTNAME")`. -/
def hostname (env : Env) : String := get_env env.notify_hostname ""

/-- Source `site = get_env("OMD_SITE")`. -/
def site (env : Env) : String := get_env env.omd_site ""

/-- Source `timestamp = get_env("NOTIFY_SHORTDATETIME")`. -/
def timestamp (env : Env) : String := get_env env.notify_shortdatetime ""

/-- Source `state`: service or host short state depending on the branch taken. -/
def state (env : Env) : String :=
  if is_service env then get_env env.notify_serviceshortstate ""
  else get_env env.notify_hostshortstate ""

/-- Source `previous_state`: service or host previous hard short state. -/
def previous_state (env : Env) : String :=
  if is_service env then get_env env.notify_previousservicehardshortstate ""
  else get_env env.notify_previoushosthardshortstate ""

/-- Source `output`: service or host plugin output. -/
def output (env : Env) : String :=
  if is_service env then get_env env.notify_serviceoutput ""
  else get_env env.notify_hostoutput ""

/-- Source `service_name`: `NOTIFY_SERVICEDESC` in the service branch, `""` otherwise. -/
def service_name (env : Env) : String :=
  if is_service env then get_env env.notify_servicedesc "" else ""

/-- Source `plain_lines`: the list built at lines 100–106 of the source. -/
def plain_lines (env : Env) : List String :=
  [get_emoji (state env) ++ " " ++ what env ++ " " ++ notification_type env
      ++ ": " ++ hostname env]
  ++ (if is_service env then ["Service: " ++ service_name env] else [])
  ++ ["State: " ++ previous_state env ++ " → " ++ state env,
      "Output: " ++ output env]

/-- Source `plain_text = "\n".join(plain_lines)`. -/
def plain_text (env : Env) : String := pyJoin "\n" (plain_lines env)

/-- Source `html_lines`: the list built at lines 111–119 of the source. -/
def html_lines (env : Env) : List String :=
  ["<p><b>" ++ get_emoji (state env) ++ " " ++ what env ++ " "
      ++ notification_type env ++ "</b></p>",
   "<b>Host:</b> " ++ hostname env]
  ++ (if is_service env then ["<b>Service:</b> " ++ service_name env] else [])
  ++ ["<b>State:</b> " ++ previous_state env ++ " &rarr; <b>" ++ state env ++ "</b>",
      "<b>Output:</b> <code>" ++ output env ++ "</code>",
      "<p><small>Site: " ++ site env ++ " | " ++ timestamp env ++ "</small></p>"]

/-- Modelled from the spec: the source file is cut off at line 121 inside
`html_text = "<br>".join(html`; the spec ("Lines joined with a line-break
element", "build(context) -> Message") fixes the completion as
`"<br>".join(html_lines)`. -/
def html_text (env : Env) : String := pyJoin "<br>" (html_lines env)

/-- Source `build_message()`: returns the pair `(plain_text, html)`.  Modelled from
the spec: the `return` statement is in the truncated part of the source; the
spec's contract `build(context: NotificationContext) -> Message` with
`Message = (plainText, htmlText)` fixes it. -/
def build_message (env : Env) : String × String := (plain_text env, html_text env)

/-- Uppercase hexadecimal digit (used by percent-encoding: Python's `quote`
escapes with `%XX`, uppercase). -/
def hexUpperDigit (d : Nat) : Char :=
  if d < 10 then Char.ofNat (48 + d) else Char.ofNat (55 + d)

/-- Lowercase hexadecimal digit (used by `str(uuid)`: Python formats the
128-bit integer with `%032x`, lowercase). -/
def hexLowerDigit (d : Nat) : Char :=
  if d < 10 then Char.ofNat (48 + d) else Char.ofNat (87 + d)

/-- UTF-8 encoding of a character, as a list of byte values (< 256). -/
def utf8Bytes (c : Char) : List Nat :=
  let n := c.toNat
  if n < 128 then [n]
  else if n < 2048 then [192 + n / 64, 128 + n % 64]
  else if n < 65536 then [224 + n / 4096, 128 + n / 64 % 64, 128 + n % 64]
  else [240 + n / 262144, 128 + n / 4096 % 64, 128 + n / 64 % 64, 128 + n % 64]

/-- The characters `urllib.parse.quote` never escapes when `safe=""`:
ASCII letters, digits, and `_.-~`. -/
def isUnreserved (c : Char) : Bool :=
  c.isAlpha || c.isDigit || c = '-' || c = '.' || c = '_' || c = '~'

/-- Percent-escape of one byte: `%XX`, uppercase hex. -/
def pctEncodeByte (b : Nat) : List Char :=
  ['%', hexUpperDigit (b / 16), hexUpperDigit (b % 16)]

/-- Source `quote` over a character list: unreserved characters pass through,
everything else is percent-encoded bytewise (UTF-8). -/
def quoteList : List Char → List Char
  | [] => []
  | c :: cs =>
    (if isUnreserved c then [c] else (utf8Bytes c).flatMap pctEncodeByte) ++ quoteList cs

/-- Source `requests.utils.quote(room_id, safe="")`: percent-encode every character
outside the unreserved set. -/
def quote (s : String) : String := ⟨quoteList s.data⟩

/-- Big-endian fixed-width hexadecimal rendering: `hexFixed k u` is the last
`k` hex digits of `u`, zero-padded (the semantics of Python `'%032x' % u`
for `u < 16^k` when `k = 32`). -/
def hexFixed : Nat → Nat → List Char
  | 0, _ => []
  | k + 1, u => hexFixed k (u / 16) ++ [hexLowerDigit (u % 16)]

/-- Source `uuid.uuid4()` as an integer: 128 random bits with the version nibble
(bits 76–79) forced to `4` and the variant bits (62–63) forced to `10`,
exactly as CPython's `UUID(bytes=os.urandom(16), version=4)` does via
`int_ &= ~(0xf000 << 64); int_ |= 0x4000 << 64` and
`int_ &= ~(0xc000 << 48); int_ |= 0x8000 << 48`. -/
def uuid4int (r : Nat) : Nat :=
  let r0 := r % 2 ^ 128
  let r1 := r0 / 2 ^ 80 * 2 ^ 80 + 4 * 2 ^ 76 + r0 % 2 ^ 76
  r1 / 2 ^ 64 * 2 ^ 64 + 2 ^ 63 + r1 % 2 ^ 62

/-- Source `str(uuid)`: `'%032x' % int_`, then hyphens inserted after hex digits
8, 12, 16 and 20 — `f"{hex[:8]}-{hex[8:12]}-{hex[12:16]}-{hex[16:20]}-{hex[20:]}"`. -/
def pyUuidStr (u : Nat) : String :=
  let h := hexFixed 32 u
  ⟨h.take 8 ++ '-' :: ((h.drop 8).take 4 ++ '-' :: ((h.drop 12).take 4
      ++ '-' :: ((h.drop 16).take 4 ++ '-' :: h.drop 20)))⟩

/-- Source `txn_id = str(uuid.uuid4())`, with the 128 random bits passed explicitly. -/
def uuid4str (r : Nat) : String := pyUuidStr (uuid4int r)

/-- The JSON payload of the send request. -/
structure Payload where
  msgtype : String
  body : String
  format : String
  formatted_body : String
deriving DecidableEq

/-- One HTTP request as the script assembles it: method, URL, headers,
JSON payload, and the timeout (seconds) handed to `requests.put`. -/
structure HttpRequest where
  method : String
  url : String
  headers : List (String × String)
  payload : Payload
  timeout : Nat
deriving DecidableEq

/-- Outcome of the one transport call `requests.put(...)`, covering exactly
the exception hierarchy the script catches: a response with some status
code, `requests.exceptions.Timeout`, `requests.exceptions.ConnectionError`,
or any other `requests.exceptions.RequestException` (every exception the
`requests` API raises derives from it; `HTTPError` is raised only later by
`raise_for_status`). -/
inductive TransportOutcome where
  | response (status : Nat)
  | timeout
  | connectionError (msg : String)
  | requestException (msg : String)
deriving DecidableEq

/-- Source `response.raise_for_status()`: raises `HTTPError` (returned here as
`some errorMessage`) exactly when `400 ≤ status < 600`, silently returns
(`none`) otherwise — including for 1xx, 3xx and ≥ 600 statuses. -/
def raise_for_status (status : Nat) : Option String :=
  if 400 ≤ status ∧ status < 500 then some (toString status ++ " Client Error")
  else if 500 ≤ status ∧ status < 600 then some (toString status ++ " Server Error")
  else none

/-- Result of `send_to_matrix`: the request that was issued, the returned
Bool, and the lines printed to stdout/stderr. -/
structure SendResult where
  request : HttpRequest
  success : Bool
  stdout : List String
  stderr : List String
deriving DecidableEq

/-- Source `send_to_matrix(homeserver, access_token, room_id, plain_text, html_text)`:
builds the transaction id, encoded room id, URL, headers and payload, issues
the PUT (whose outcome is the `outcome` parameter), and classifies the result
through the `try/except` ladder.  Returns `True` on a status outside 400–599,
`False` (with a stderr diagnostic) on `HTTPError` from `raise_for_status`,
`Timeout`, `ConnectionError`, or any other `RequestException`. -/
def send_to_matrix (homeserver access_token room_id plain html : String)
    (r : Nat) (outcome : TransportOutcome) : SendResult :=
  let txn_id := uuid4str r
  let encoded_room_id := quote room_id
  let url := "https://" ++ homeserver ++ "/_matrix/client/v3/rooms/"
      ++ encoded_room_id ++ "/send/m.room.message/" ++ txn_id
  let headers := [("Content-Type", "application/json"),
                  ("Authorization", "Bearer " ++ access_token)]
  let payload : Payload := ⟨"m.text", plain, "org.matrix.custom.html", html⟩
  let req : HttpRequest := ⟨"PUT", url, headers, payload, REQUEST_TIMEOUT⟩
  match outcome with
  | TransportOutcome.response s =>
    match raise_for_status s with
    | none => ⟨req, true, ["OK: Message sent successfully"], []⟩
    | some e => ⟨req, false, [], ["ERROR: HTTP error: " ++ e]⟩
  | TransportOutcome.timeout => ⟨req, false, [], ["ERROR: Request timed out"]⟩
  | TransportOutcome.connectionError err =>
    ⟨req, false, [], ["ERROR: Could not connect to server: " ++ err]⟩
  | TransportOutcome.requestException err =>
    ⟨req, false, [], ["ERROR: Request failed: " ++ err]⟩

/-- Observable result of one process run: exit code, every HTTP request
issued, and the stdout/stderr lines. -/
structure MainResult where
  exitCode : Nat
  requests : List HttpRequest
  stdout : List String
  stderr : List String
deriving DecidableEq

/-- Source `main()`: reads the three required parameters (exiting with
`EXIT_FAILED = 2` and a diagnostic if one is missing, before any delivery
attempt), builds the message, sends it, and exits 0 on success, 1 otherwise. -/
def main (env : Env) (r : Nat) (outcome : TransportOutcome) : MainResult :=
  match get_required_env "NOTIFY_PARAMETER_1" env.notify_parameter_1 with
  | Except.error m => ⟨EXIT_FAILED, [], [], [m]⟩
  | Except.ok homeserver =>
  match get_required_env "NOTIFY_PARAMETER_2" env.notify_parameter_2 with
  | Except.error m => ⟨EXIT_FAILED, [], [], [m]⟩
  | Except.ok access_token =>
  match get_required_env "NOTIFY_PARAMETER_3" env.notify_parameter_3 with
  | Except.error m => ⟨EXIT_FAILED, [], [], [m]⟩
  | Except.ok room_id =>
    let msg := build_message env
    let res := send_to_matrix homeserver access_token room_id msg.1 msg.2 r outcome
    ⟨if res.success then EXIT_SUCCESS else EXIT_RETRY,
     [res.request], res.stdout, res.stderr⟩

/-- Substring relation on strings: `strContains t s` holds when `s` occurs
contiguously inside `t`. -/
def strContains (t s : String) : Prop := s.data <:+: t.data

instance (t s : String) : Decidable (strContains t s) := by
  unfold strContains; infer_instance

/-- A required variable is "missing" when it is unset or set to `""`
(both make Python's `if not value:` true). -/
def missingValue (v : Option String) : Prop := v = none ∨ v = some ""

instance (v : Option String) : Decidable (missingValue v) := by
  unfold missingValue; infer_instance

/-- The diagnostic line `get_required_env` prints for variable `name`. -/
def missingDiagnostic (name : String) : String :=
  "ERROR: Missing required environment variable: " ++ name

/-- Lowercase hexadecimal digit test (the characters `'%032x'` can emit). -/
def isLowerHexChar (c : Char) : Bool :=
  c.isDigit || ('a' ≤ c && c ≤ 'f')

/-- Canonical hyphenated version-4 UUID string: five all-lowercase-hex groups
of lengths 8-4-4-4-12 separated by hyphens, the third group starting with the
version digit `4` and the fourth with a variant digit in `8/9/a/b`. -/
def isCanonicalUuid4 (s : String) : Prop :=
  ∃ a b c d e : List Char,
    s.data = a ++ '-' :: (b ++ '-' :: (c ++ '-' :: (d ++ '-' :: e))) ∧
    a.length = 8 ∧ b.length = 4 ∧ c.length = 4 ∧ d.length = 4 ∧ e.length = 12 ∧
    (∀ ch ∈ a ++ b ++ c ++ d ++ e, isLowerHexChar ch = true) ∧
    c.head? = some '4' ∧
    ∃ v, d.head? = some v ∧ v ∈ ['8', '9', 'a', 'b']

/-- Numeric value of a lowercase hexadecimal digit character. -/
def hexCharVal (c : Char) : Nat :=
  if c.toNat ≤ 57 then c.toNat - 48 else c.toNat - 87

/-- Big-endian interpretation of a list of hexadecimal digit characters. -/
def fromHexChars (l : List Char) : Nat :=
  l.foldl (fun acc c => acc * 16 + hexCharVal c) 0

/-- Recover the 128-bit integer from a hyphenated UUID string (drop the
hyphens, read the 32 hex digits).  Used to state that the transaction-id
rendering loses no information, so distinct UUID values give distinct
transaction ids. -/
def uuidParse (s : String) : Nat :=
  fromHexChars (s.data.filter (fun c => c != '-'))

/-! ### Helper lemmas -/

theorem get_required_env_missing (name : String) (v : Option String)
    (h : missingValue v) :
    get_required_env name v = Except.error (missingDiagnostic name) := by
  rcases h with h | h <;> subst h <;> rfl

theorem get_required_env_ok (name : String) (s : String) (hs : s ≠ "") :
    get_required_env name (some s) = Except.ok s := by
  simp [get_required_env, hs]

theorem get_required_env_error_msg (name : String) (v : Option String) (m : String)
    (h : get_required_env name v = Except.error m) : m = missingDiagnostic name := by
  unfold get_required_env at h
  rcases v with _ | s
  · exact (Except.error.injEq _ _).mp h |>.symm
  · by_cases hs : s = "" <;> simp [hs] at h
    exact h.symm

theorem get_required_env_ok_not_missing (name : String) (v : Option String) (s : String)
    (h : get_required_env name v = Except.ok s) : ¬ missingValue v := by
  intro hm
  rw [get_required_env_missing name v hm] at h
  exact Except.noConfusion h

/-! ### C2: the process always terminates with exit code 0, 1 or 2 -/

/-- C2: for every environment, every draw of randomness and every transport
outcome, `main` is total (the model is a Lean function) and its exit code is
one of `EXIT_SUCCESS = 0`, `EXIT_RETRY = 1`, `EXIT_FAILED = 2`: every failure
path is caught and mapped to exit code 1 or 2, never an unhandled crash. -/
theorem claim_C2 (env : Env) (r : Nat) (outcome : TransportOutcome) :
    (main env r outcome).exitCode = EXIT_SUCCESS ∨
    (main env r outcome).exitCode = EXIT_RETRY ∨
    (main env r outcome).exitCode = EXIT_FAILED := by
  unfold main
  cases get_required_env "NOTIFY_PARAMETER_1" env.notify_parameter_1 with
  | error m => right; right; rfl
  | ok s1 =>
    cases get_required_env "NOTIFY_PARAMETER_2" env.notify_parameter_2 with
    | error m => right; right; rfl
    | ok s2 =>
      cases get_required_env "NOTIFY_PARAMETER_3" env.notify_parameter_3 with
      | error m => right; right; rfl
      | ok s3 =>
        by_cases h : (send_to_matrix s1 s2 s3 (build_message env).1
            (build_message env).2 r outcome).success = true
        · left; simp [h]
        · right; left; simp [h]

/-! ### C3: missing required parameter → exit 2, diagnostic, no request -/

/-- C3: when any of the three required connection parameters is absent from
the environment, the process exits with code 2, prints a diagnostic to
standard error naming a missing variable, and issues no HTTP request. -/
theorem claim_C3 (env : Env) (r : Nat) (outcome : TransportOutcome)
    (h : env.notify_parameter_1 = none ∨ env.notify_parameter_2 = none ∨
         env.notify_parameter_3 = none) :
    (main env r outcome).exitCode = EXIT_FAILED ∧
    (main env r outcome).requests = [] ∧
    ∃ name, name ∈ ["NOTIFY_PARAMETER_1", "NOTIFY_PARAMETER_2", "NOTIFY_PARAMETER_3"] ∧
      missingValue (if name = "NOTIFY_PARAMETER_1" then env.notify_parameter_1
        else if name = "NOTIFY_PARAMETER_2" then env.notify_parameter_2
        else env.notify_parameter_3) ∧
      (main env r outcome).stderr = [missingDiagnostic name] := by
  cases h1 : get_required_env "NOTIFY_PARAMETER_1" env.notify_parameter_1 with
  | error m =>
    rw [get_required_env_error_msg _ _ _ h1] at h1
    refine ⟨by simp [main, h1], by simp [main, h1], "NOTIFY_PARAMETER_1", by simp, ?_, by simp [main, h1]⟩
    have hm : missingValue env.notify_parameter_1 := by
      rcases hv : env.notify_parameter_1 with _ | s
      · exact Or.inl rfl
      · rw [hv] at h1
        unfold get_required_env at h1
        by_cases hs : s = ""
        · subst hs; exact Or.inr rfl
        · simp [hs] at h1
    simpa using hm
  | ok s1 =>
    cases h2 : get_required_env "NOTIFY_PARAMETER_2" env.notify_parameter_2 with
    | error m =>
      rw [get_required_env_error_msg _ _ _ h2] at h2
      refine ⟨by simp [main, h1, h2], by simp [main, h1, h2], "NOTIFY_PARAMETER_2", by simp, ?_,
        by simp [main, h1, h2]⟩
      have hm : missingValue env.notify_parameter_2 := by
        rcases hv : env.notify_parameter_2 with _ | s
        · exact Or.inl rfl
        · rw [hv] at h2
          unfold get_required_env at h2
          by_cases hs : s = ""
          · subst hs; exact Or.inr rfl
          · simp [hs] at h2
      simpa using hm
    | ok s2 =>
      cases h3 : get_required_env "NOTIFY_PARAMETER_3" env.notify_parameter_3 with
      | error m =>
        rw [get_required_env_error_msg _ _ _ h3] at h3
        refine ⟨by simp [main, h1, h2, h3], by simp [main, h1, h2, h3], "NOTIFY_PARAMETER_3", by simp, ?_,
          by simp [main, h1, h2, h3]⟩
        have hm : missingValue env.notify_parameter_3 := by
          rcases hv : env.notify_parameter_3 with _ | s
          · exact Or.inl rfl
          · rw [hv] at h3
            unfold get_required_env at h3
            by_cases hs : s = ""
            · subst hs; exact Or.inr rfl
            · simp [hs] at h3
        simpa using hm
      | ok s3 =>
        exfalso
        rcases h with h | h | h
        · rw [h] at h1; exact Except.noConfusion h1
        · rw [h] at h2; exact Except.noConfusion h2
        · rw [h] at h3; exact Except.noConfusion h3

/-- Witness for C3 at a concrete input: the all-unset environment exits with
code 2 and issues no request. -/
theorem claim_C3_witness :
    (main Env.empty 0 TransportOutcome.timeout).exitCode = EXIT_FAILED ∧
    (main Env.empty 0 TransportOutcome.timeout).requests = [] := by
  have h := claim_C3 Env.empty 0 TransportOutcome.timeout (Or.inl rfl)
  exact ⟨h.1, h.2.1⟩

/-! ### C10: a present-but-empty required parameter behaves like an absent one -/

/-- C10 (implicit): a required connection parameter that is present but set
to the empty string is treated exactly like an absent one — exit code 2, the
missing-variable diagnostic on standard error, and no HTTP request. -/
theorem claim_C10 (env : Env) (r : Nat) (outcome : TransportOutcome)
    (h : env.notify_parameter_1 = some "" ∨ env.notify_parameter_2 = some "" ∨
         env.notify_parameter_3 = some "") :
    (main env r outcome).exitCode = EXIT_FAILED ∧
    (main env r outcome).requests = [] ∧
    ∃ name, name ∈ ["NOTIFY_PARAMETER_1", "NOTIFY_PARAMETER_2", "NOTIFY_PARAMETER_3"] ∧
      (main env r outcome).stderr = [missingDiagnostic name] := by
  cases h1 : get_required_env "NOTIFY_PARAMETER_1" env.notify_parameter_1 with
  | error m =>
    rw [get_required_env_error_msg _ _ _ h1] at h1
    exact ⟨by simp [main, h1], by simp [main, h1], "NOTIFY_PARAMETER_1", by simp, by simp [main, h1]⟩
  | ok s1 =>
    cases h2 : get_required_env "NOTIFY_PARAMETER_2" env.notify_parameter_2 with
    | error m =>
      rw [get_required_env_error_msg _ _ _ h2] at h2
      exact ⟨by simp [main, h1, h2], by simp [main, h1, h2], "NOTIFY_PARAMETER_2", by simp,
        by simp [main, h1, h2]⟩
    | ok s2 =>
      cases h3 : get_required_env "NOTIFY_PARAMETER_3" env.notify_parameter_3 with
      | error m =>
        rw [get_required_env_error_msg _ _ _ h3] at h3
        exact ⟨by simp [main, h1, h2, h3], by simp [main, h1, h2, h3], "NOTIFY_PARAMETER_3", by simp,
          by simp [main, h1, h2, h3]⟩
      | ok s3 =>
        exfalso
        rcases h with h | h | h
        · exact get_required_env_ok_not_missing _ _ _ h1 (Or.inr h)
        · exact get_required_env_ok_not_missing _ _ _ h2 (Or.inr h)
        · exact get_required_env_ok_not_missing _ _ _ h3 (Or.inr h)

/-- Witness for C10 at a concrete input: an environment whose access-token
parameter is set to the empty string exits with code 2 and issues no request. -/
theorem claim_C10_witness :
    (main ⟨none, none, none, none, none, none, none, none, none, none, none, none,
      some "matrix.example.org", some "", some "!room:example.org"⟩ 0
      (TransportOutcome.response 200)).exitCode = EXIT_FAILED ∧
    (main ⟨none, none, none, none, none, none, none, none, none, none, none, none,
      some "matrix.example.org", some "", some "!room:example.org"⟩ 0
      (TransportOutcome.response 200)).requests = [] := by
  have h := claim_C10 ⟨none, none, none, none, none, none, none, none, none, none, none, none,
    some "matrix.example.org", some "", some "!room:example.org"⟩ 0
    (TransportOutcome.response 200) (Or.inr (Or.inl rfl))
  exact ⟨h.1, h.2.1⟩

/-! ### C4: outcome classification -/

theorem get_required_env_ok_getD (name : String) (v : Option String)
    (h : ¬ missingValue v) : get_required_env name v = Except.ok (v.getD "") := by
  rcases v with _ | s
  · exact absurd (Or.inl rfl) h
  · have hs : s ≠ "" := fun he => h (Or.inr (by rw [he]))
    simp [get_required_env, hs]

/-- When the three required parameters are present and non-empty, `main`
performs exactly one `send_to_matrix` call on the built message and reports
its result. -/
theorem main_eq_send (env : Env) (r : Nat) (outcome : TransportOutcome)
    (h1 : ¬ missingValue env.notify_parameter_1)
    (h2 : ¬ missingValue env.notify_parameter_2)
    (h3 : ¬ missingValue env.notify_parameter_3) :
    main env r outcome =
      ⟨if (send_to_matrix (env.notify_parameter_1.getD "") (env.notify_parameter_2.getD "")
            (env.notify_parameter_3.getD "") (plain_text env) (html_text env) r outcome).success
        then EXIT_SUCCESS else EXIT_RETRY,
       [(send_to_matrix (env.notify_parameter_1.getD "") (env.notify_parameter_2.getD "")
            (env.notify_parameter_3.getD "") (plain_text env) (html_text env) r outcome).request],
       (send_to_matrix (env.notify_parameter_1.getD "") (env.notify_parameter_2.getD "")
            (env.notify_parameter_3.getD "") (plain_text env) (html_text env) r outcome).stdout,
       (send_to_matrix (env.notify_parameter_1.getD "") (env.notify_parameter_2.getD "")
            (env.notify_parameter_3.getD "") (plain_text env) (html_text env) r outcome).stderr⟩ := by
  rw [main, get_required_env_ok_getD _ _ h1, get_required_env_ok_getD _ _ h2,
    get_required_env_ok_getD _ _ h3]
  rfl

theorem send_response_no_error (hs tok room p h : String) (r st : Nat)
    (hst : ¬ (400 ≤ st ∧ st < 600)) :
    (send_to_matrix hs tok room p h r (TransportOutcome.response st)).success = true ∧
    (send_to_matrix hs tok room p h r (TransportOutcome.response st)).stdout =
      ["OK: Message sent successfully"] ∧
    (send_to_matrix hs tok room p h r (TransportOutcome.response st)).stderr = [] := by
  have hr : raise_for_status st = none := by
    unfold raise_for_status
    rw [if_neg (by omega), if_neg (by omega)]
  simp [send_to_matrix, hr]

theorem send_response_error (hs tok room p h : String) (r st : Nat)
    (hst1 : 400 ≤ st) (hst2 : st < 600) :
    (send_to_matrix hs tok room p h r (TransportOutcome.response st)).success = false ∧
    (send_to_matrix hs tok room p h r (TransportOutcome.response st)).stdout = [] ∧
    (send_to_matrix hs tok room p h r (TransportOutcome.response st)).stderr ≠ [] := by
  by_cases h5 : st < 500
  · have hr : raise_for_status st = some (toString st ++ " Client Error") := by
      unfold raise_for_status
      rw [if_pos (by omega)]
    simp [send_to_matrix, hr]
  · have hr : raise_for_status st = some (toString st ++ " Server Error") := by
      unfold raise_for_status
      rw [if_neg (by omega), if_pos (by omega)]
    simp [send_to_matrix, hr]

/-- C4 counterexample: the claim says every non-2xx HTTP status yields exit
code 1, but a 304 response (non-2xx) makes `raise_for_status` return
silently, so the run prints the success line and exits 0. -/
theorem claim_C4_counterexample :
    ¬ (200 ≤ 304 ∧ 304 < 300) ∧
    (main ⟨none, none, none, none, none, none, none, none, none, none, none, none,
        some "matrix.example.org", some "token123", some "!room:example.org"⟩ 0
        (TransportOutcome.response 304)).exitCode ≠ EXIT_RETRY ∧
    (main ⟨none, none, none, none, none, none, none, none, none, none, none, none,
        some "matrix.example.org", some "token123", some "!room:example.org"⟩ 0
        (TransportOutcome.response 304)).exitCode = EXIT_SUCCESS ∧
    (main ⟨none, none, none, none, none, none, none, none, none, none, none, none,
        some "matrix.example.org", some "token123", some "!room:example.org"⟩ 0
        (TransportOutcome.response 304)).stdout = ["OK: Message sent successfully"] := by
  refine ⟨by omega, ?_, ?_, ?_⟩ <;> decide

/-- C4 (amended): the outcome classification is exhaustive, but the
"Delivered" side is decided by `raise_for_status`, which raises only for
statuses 400–599.  Any response status outside 400–599 (all 2xx, but also
1xx, 3xx and ≥ 600) yields exit code 0 with the success line on stdout; a
4xx/5xx status, a timeout, a connection failure, or any other request
exception yields exit code 1 with a diagnostic on stderr. -/
theorem claim_C4 (env : Env) (r : Nat)
    (h1 : ¬ missingValue env.notify_parameter_1)
    (h2 : ¬ missingValue env.notify_parameter_2)
    (h3 : ¬ missingValue env.notify_parameter_3) :
    (∀ st, ¬ (400 ≤ st ∧ st < 600) →
      (main env r (TransportOutcome.response st)).exitCode = EXIT_SUCCESS ∧
      (main env r (TransportOutcome.response st)).stdout = ["OK: Message sent successfully"] ∧
      (main env r (TransportOutcome.response st)).stderr = []) ∧
    (∀ st, 400 ≤ st → st < 600 →
      (main env r (TransportOutcome.response st)).exitCode = EXIT_RETRY ∧
      (main env r (TransportOutcome.response st)).stdout = [] ∧
      (main env r (TransportOutcome.response st)).stderr ≠ []) ∧
    ((main env r TransportOutcome.timeout).exitCode = EXIT_RETRY ∧
      (main env r TransportOutcome.timeout).stdout = [] ∧
      (main env r TransportOutcome.timeout).stderr = ["ERROR: Request timed out"]) ∧
    (∀ m, (main env r (TransportOutcome.connectionError m)).exitCode = EXIT_RETRY ∧
      (main env r (TransportOutcome.connectionError m)).stdout = [] ∧
      (main env r (TransportOutcome.connectionError m)).stderr =
        ["ERROR: Could not connect to server: " ++ m]) ∧
    (∀ m, (main env r (TransportOutcome.requestException m)).exitCode = EXIT_RETRY ∧
      (main env r (TransportOutcome.requestException m)).stdout = [] ∧
      (main env r (TransportOutcome.requestException m)).stderr =
        ["ERROR: Request failed: " ++ m]) := by
  refine ⟨?_, ?_, ?_, ?_, ?_⟩
  · intro st hst
    rw [main_eq_send _ _ _ h1 h2 h3]
    have h := send_response_no_error (env.notify_parameter_1.getD "")
      (env.notify_parameter_2.getD "") (env.notify_parameter_3.getD "")
      (plain_text env) (html_text env) r st hst
    simp [h.1, h.2.1, h.2.2]
  · intro st hst1 hst2
    rw [main_eq_send _ _ _ h1 h2 h3]
    have h := send_response_error (env.notify_parameter_1.getD "")
      (env.notify_parameter_2.getD "") (env.notify_parameter_3.getD "")
      (plain_text env) (html_text env) r st hst1 hst2
    simp [h.1, h.2.1, h.2.2]
  · rw [main_eq_send _ _ _ h1 h2 h3]
    simp [send_to_matrix]
  · intro m
    rw [main_eq_send _ _ _ h1 h2 h3]
    simp [send_to_matrix]
  · intro m
    rw [main_eq_send _ _ _ h1 h2 h3]
    simp [send_to_matrix]

/-- Witness for C4 at concrete inputs: a 200 response exits 0; a 500 response
and a timeout exit 1. -/
theorem claim_C4_witness :
    (main ⟨none, none, none, none, none, none, none, none, none, none, none, none,
        some "matrix.example.org", some "token123", some "!room:example.org"⟩ 0
        (TransportOutcome.response 200)).exitCode = EXIT_SUCCESS ∧
    (main ⟨none, none, none, none, none, none, none, none, none, none, none, none,
        some "matrix.example.org", some "token123", some "!room:example.org"⟩ 0
        (TransportOutcome.response 500)).exitCode = EXIT_RETRY ∧
    (main ⟨none, none, none, none, none, none, none, none, none, none, none, none,
        some "matrix.example.org", some "token123", some "!room:example.org"⟩ 0
        TransportOutcome.timeout).exitCode = EXIT_RETRY := by
  have h := claim_C4 ⟨none, none, none, none, none, none, none, none, none, none, none, none,
    some "matrix.example.org", some "token123", some "!room:example.org"⟩ 0
    (by decide) (by decide) (by decide)
  exact ⟨(h.1 200 (by omega)).1, (h.2.1 500 (by omega) (by omega)).1, h.2.2.1.1⟩

/-! ### C6: emoji selection -/

/-- Case characterization of `get_emoji`, following the dict's insertion
order. -/
theorem get_emoji_cases (s : String) :
    get_emoji s =
      if s = "OK" then "✅" else if s = "UP" then "✅"
      else if s = "WARN" then "⚠️ " else if s = "CRIT" then "🚨"
      else if s = "DOWN" then "🚨" else if s = "UNKNOWN" then "❔"
      else "ℹ️ " := by
  by_cases h1 : s = "OK"
  · subst h1; decide
  by_cases h2 : s = "UP"
  · subst h2; decide
  by_cases h3 : s = "WARN"
  · subst h3; decide
  by_cases h4 : s = "CRIT"
  · subst h4; decide
  by_cases h5 : s = "DOWN"
  · subst h5; decide
  by_cases h6 : s = "UNKNOWN"
  · subst h6; decide
  have b1 : (s == "OK") = false := beq_eq_false_iff_ne.mpr h1
  have b2 : (s == "UP") = false := beq_eq_false_iff_ne.mpr h2
  have b3 : (s == "WARN") = false := beq_eq_false_iff_ne.mpr h3
  have b4 : (s == "CRIT") = false := beq_eq_false_iff_ne.mpr h4
  have b5 : (s == "DOWN") = false := beq_eq_false_iff_ne.mpr h5
  have b6 : (s == "UNKNOWN") = false := beq_eq_false_iff_ne.mpr h6
  simp [get_emoji, STATE_EMOJIS, List.lookup, b1, b2, b3, b4, b5, b6, h1, h2, h3, h4, h5, h6]

/-- Every emoji the table can produce is a non-empty string. -/
theorem get_emoji_length_pos (s : String) : 0 < (get_emoji s).length := by
  rw [get_emoji_cases s]
  split_ifs <;> decide

/-- C6 counterexample: the claim says `get_emoji` returns exactly ⚠️ for
`"WARN"` and exactly ℹ️ for unmapped states, but the source strings both
carry a trailing space (after the variation selector), so they differ from
the bare emoji. -/
theorem claim_C6_counterexample :
    get_emoji "WARN" ≠ "⚠️" ∧ get_emoji "WARN" = "⚠️ " ∧
    get_emoji "frobnicate" ≠ "ℹ️" ∧ get_emoji "frobnicate" = "ℹ️ " := by
  refine ⟨?_, ?_, ?_, ?_⟩ <;> decide

/-- C6 (amended): the lookup is exact-match and case-sensitive, with
`OK`/`UP` → ✅, `CRIT`/`DOWN` → 🚨, `UNKNOWN` → ❔ exactly as claimed, but
`WARN` maps to `"⚠️ "` (the warning emoji followed by a space) and every
unmapped state to `"ℹ️ "` (the info emoji followed by a space). -/
theorem claim_C6 (s : String) :
    get_emoji s =
      if s = "OK" ∨ s = "UP" then "✅"
      else if s = "WARN" then "⚠️ "
      else if s = "CRIT" ∨ s = "DOWN" then "🚨"
      else if s = "UNKNOWN" then "❔"
      else "ℹ️ " := by
  rw [get_emoji_cases s]
  split_ifs <;> first | rfl | tauto

/-! ### String containment helpers -/

theorem strContains_intro (a s b t : String) (h : a ++ s ++ b = t) :
    strContains t s := by
  refine ⟨a.data, b.data, ?_⟩
  rw [← h]
  simp [String.data_append]

theorem strContains_refl (s : String) : strContains s s :=
  ⟨[], [], by simp⟩

theorem strContains_append_left (s b : String) : strContains (s ++ b) s :=
  ⟨[], b.data, by simp [String.data_append]⟩

theorem strContains_append_right (a s : String) : strContains (a ++ s) s :=
  ⟨a.data, [], by simp [String.data_append]⟩

theorem strContains_mono_left (a t s : String) (h : strContains t s) :
    strContains (a ++ t) s := by
  obtain ⟨p, q, hp⟩ := h
  refine ⟨a.data ++ p, q, ?_⟩
  rw [String.data_append, ← hp]
  simp

theorem strContains_mono_right (t b s : String) (h : strContains t s) :
    strContains (t ++ b) s := by
  obtain ⟨p, q, hp⟩ := h
  refine ⟨p, q ++ b.data, ?_⟩
  rw [String.data_append, ← hp]
  simp

theorem strContains_trans (t u s : String) (h1 : strContains t u)
    (h2 : strContains u s) : strContains t s :=
  List.IsInfix.trans h2 h1

theorem pyJoin_contains (sep : String) (l : List String) (x : String)
    (hx : x ∈ l) : strContains (pyJoin sep l) x := by
  induction l with
  | nil => cases hx
  | cons y ys ih =>
    cases ys with
    | nil =>
      rw [List.mem_singleton.mp hx]
      exact strContains_refl y
    | cons z zs =>
      rcases List.mem_cons.mp hx with hx | hx
      · subst hx
        exact strContains_mono_right _ _ _ (strContains_append_left x sep)
      · exact strContains_mono_left (y ++ sep) _ _ (ih hx)

theorem strContains_ne_empty (t : String) (ht : 0 < t.length) : t ≠ "" := by
  intro he
  rw [he] at ht
  simp at ht

/-! ### Shape of the built messages -/

theorem plain_text_eq (env : Env) :
    plain_text env =
      (get_emoji (state env) ++ " " ++ what env ++ " " ++ notification_type env
          ++ ": " ++ hostname env ++ "\n")
      ++ ((if is_service env then "Service: " ++ service_name env ++ "\n" else "")
        ++ (("State: " ++ previous_state env ++ " \u2192 " ++ state env ++ "\n")
          ++ ("Output: " ++ output env))) := by
  unfold plain_text plain_lines
  cases h : is_service env <;> rfl

theorem html_text_eq (env : Env) :
    html_text env =
      (("<p><b>" ++ get_emoji (state env) ++ " " ++ what env ++ " "
          ++ notification_type env ++ "</b></p>") ++ "<br>")
      ++ ((("<b>Host:</b> " ++ hostname env) ++ "<br>")
        ++ ((if is_service env then ("<b>Service:</b> " ++ service_name env) ++ "<br>" else "")
          ++ ((("<b>State:</b> " ++ previous_state env ++ " &rarr; <b>" ++ state env ++ "</b>") ++ "<br>")
            ++ ((("<b>Output:</b> <code>" ++ output env ++ "</code>") ++ "<br>")
              ++ ("<p><small>Site: " ++ site env ++ " | " ++ timestamp env ++ "</small></p>"))))) := by
  unfold html_text html_lines
  cases h : is_service env <;> rfl

theorem plain_text_length_pos (env : Env) : 0 < (plain_text env).length := by
  rw [plain_text_eq]
  have h1 : ("\n" : String).length = 1 := rfl
  simp only [String.length_append, h1]
  omega

theorem html_text_length_pos (env : Env) : 0 < (html_text env).length := by
  rw [html_text_eq]
  have h1 : ("<br>" : String).length = 4 := rfl
  simp only [String.length_append, h1]
  omega

/-! ### C5: exact shape of the plain-text message -/

/-- C5: the plain-text message is exactly the first line
`"{emoji} {kind} {notificationType}: {hostname}"`, then a `"Service: ..."`
line exactly when the kind is `SERVICE`, then the `"State: ... \u2192 ..."` line,
then the `"Output: ..."` line, joined with newline characters. -/
theorem claim_C5 (env : Env) :
    plain_text env =
      get_emoji (state env) ++ " " ++ what env ++ " " ++ notification_type env
        ++ ": " ++ hostname env ++ "\n"
      ++ (if what env = "SERVICE" then "Service: " ++ service_name env ++ "\n" else "")
      ++ "State: " ++ previous_state env ++ " \u2192 " ++ state env ++ "\n"
      ++ "Output: " ++ output env := by
  rw [plain_text_eq]
  simp only [is_service, beq_iff_eq, String.append_assoc]

/-! ### C1: totality and content of the message builder -/

theorem line1_mem_plain_lines (env : Env) :
    (get_emoji (state env) ++ " " ++ what env ++ " " ++ notification_type env
      ++ ": " ++ hostname env) ∈ plain_lines env := by
  cases h : is_service env <;> simp [plain_lines, h]

theorem state_line_mem_plain_lines (env : Env) :
    ("State: " ++ previous_state env ++ " \u2192 " ++ state env) ∈ plain_lines env := by
  cases h : is_service env <;> simp [plain_lines, h]

theorem output_line_mem_plain_lines (env : Env) :
    ("Output: " ++ output env) ∈ plain_lines env := by
  cases h : is_service env <;> simp [plain_lines, h]

theorem state_line_mem_html_lines (env : Env) :
    ("<b>State:</b> " ++ previous_state env ++ " &rarr; <b>" ++ state env ++ "</b>")
      ∈ html_lines env := by
  cases h : is_service env <;> simp [html_lines, h]

theorem output_line_mem_html_lines (env : Env) :
    ("<b>Output:</b> <code>" ++ output env ++ "</code>") ∈ html_lines env := by
  cases h : is_service env <;> simp [html_lines, h]

theorem plain_contains_previous_state (env : Env) :
    strContains (plain_text env) (previous_state env) :=
  strContains_trans _ _ _
    (pyJoin_contains "\n" _ _ (state_line_mem_plain_lines env))
    (strContains_mono_right _ _ _ (strContains_mono_right _ _ _
      (strContains_append_right "State: " (previous_state env))))

theorem plain_contains_state (env : Env) :
    strContains (plain_text env) (state env) :=
  strContains_trans _ _ _
    (pyJoin_contains "\n" _ _ (state_line_mem_plain_lines env))
    (strContains_append_right ("State: " ++ previous_state env ++ " \u2192 ") (state env))

theorem plain_contains_output (env : Env) :
    strContains (plain_text env) (output env) :=
  strContains_trans _ _ _
    (pyJoin_contains "\n" _ _ (output_line_mem_plain_lines env))
    (strContains_append_right "Output: " (output env))

theorem html_contains_previous_state (env : Env) :
    strContains (html_text env) (previous_state env) :=
  strContains_trans _ _ _
    (pyJoin_contains "<br>" _ _ (state_line_mem_html_lines env))
    (strContains_mono_right _ _ _ (strContains_mono_right _ _ _
      (strContains_mono_right _ _ _
        (strContains_append_right "<b>State:</b> " (previous_state env)))))

theorem html_contains_state (env : Env) :
    strContains (html_text env) (state env) :=
  strContains_trans _ _ _
    (pyJoin_contains "<br>" _ _ (state_line_mem_html_lines env))
    (strContains_mono_right _ _ _
      (strContains_append_right ("<b>State:</b> " ++ previous_state env ++ " &rarr; <b>")
        (state env)))

theorem html_contains_output (env : Env) :
    strContains (html_text env) (output env) :=
  strContains_trans _ _ _
    (pyJoin_contains "<br>" _ _ (output_line_mem_html_lines env))
    (strContains_mono_right _ _ _
      (strContains_append_right "<b>Output:</b> <code>" (output env)))

/-- C1: `build_message` is total (it is a plain Lean function) and returns the
pair `(plain, html)`; for every context both components are non-empty strings
and both contain the two state codes of the state transition as well as the
output text verbatim. -/
theorem claim_C1 (env : Env) :
    build_message env = (plain_text env, html_text env) ∧
    plain_text env ≠ "" ∧ html_text env ≠ "" ∧
    strContains (plain_text env) (previous_state env) ∧
    strContains (plain_text env) (state env) ∧
    strContains (plain_text env) (output env) ∧
    strContains (html_text env) (previous_state env) ∧
    strContains (html_text env) (state env) ∧
    strContains (html_text env) (output env) :=
  ⟨rfl, strContains_ne_empty _ (plain_text_length_pos env),
   strContains_ne_empty _ (html_text_length_pos env),
   plain_contains_previous_state env, plain_contains_state env,
   plain_contains_output env, html_contains_previous_state env,
   html_contains_state env, html_contains_output env⟩

/-! ### C9: semantic content of the two renderings -/

theorem header_mem_html_lines (env : Env) :
    ("<p><b>" ++ get_emoji (state env) ++ " " ++ what env ++ " "
      ++ notification_type env ++ "</b></p>") ∈ html_lines env := by
  cases h : is_service env <;> simp [html_lines, h]

theorem host_line_mem_html_lines (env : Env) :
    ("<b>Host:</b> " ++ hostname env) ∈ html_lines env := by
  cases h : is_service env <;> simp [html_lines, h]

theorem footer_mem_html_lines (env : Env) :
    ("<p><small>Site: " ++ site env ++ " | " ++ timestamp env ++ "</small></p>")
      ∈ html_lines env := by
  cases h : is_service env <;> simp [html_lines, h]

theorem service_line_mem_plain_lines (env : Env) (h : is_service env = true) :
    ("Service: " ++ service_name env) ∈ plain_lines env := by
  simp [plain_lines, h]

theorem service_line_mem_html_lines (env : Env) (h : is_service env = true) :
    ("<b>Service:</b> " ++ service_name env) ∈ html_lines env := by
  simp [html_lines, h]

theorem plain_contains_hostname (env : Env) :
    strContains (plain_text env) (hostname env) :=
  strContains_trans _ _ _
    (pyJoin_contains "\n" _ _ (line1_mem_plain_lines env))
    (strContains_append_right
      (get_emoji (state env) ++ " " ++ what env ++ " " ++ notification_type env ++ ": ")
      (hostname env))

theorem plain_contains_emoji (env : Env) :
    strContains (plain_text env) (get_emoji (state env)) :=
  strContains_trans _ _ _
    (pyJoin_contains "\n" _ _ (line1_mem_plain_lines env))
    (strContains_mono_right _ _ _ (strContains_mono_right _ _ _
      (strContains_mono_right _ _ _ (strContains_mono_right _ _ _
        (strContains_mono_right _ _ _
          (strContains_append_left (get_emoji (state env)) " "))))))

theorem html_contains_hostname (env : Env) :
    strContains (html_text env) (hostname env) :=
  strContains_trans _ _ _
    (pyJoin_contains "<br>" _ _ (host_line_mem_html_lines env))
    (strContains_append_right "<b>Host:</b> " (hostname env))

theorem html_contains_emoji (env : Env) :
    strContains (html_text env) (get_emoji (state env)) :=
  strContains_trans _ _ _
    (pyJoin_contains "<br>" _ _ (header_mem_html_lines env))
    (strContains_mono_right _ _ _ (strContains_mono_right _ _ _
      (strContains_mono_right _ _ _ (strContains_mono_right _ _ _
        (strContains_mono_right _ _ _
          (strContains_append_right "<p><b>" (get_emoji (state env))))))))

theorem html_contains_site (env : Env) :
    strContains (html_text env) (site env) :=
  strContains_trans _ _ _
    (pyJoin_contains "<br>" _ _ (footer_mem_html_lines env))
    (strContains_mono_right _ _ _ (strContains_mono_right _ _ _
      (strContains_mono_right _ _ _
        (strContains_append_right "<p><small>Site: " (site env)))))

theorem html_contains_timestamp (env : Env) :
    strContains (html_text env) (timestamp env) :=
  strContains_trans _ _ _
    (pyJoin_contains "<br>" _ _ (footer_mem_html_lines env))
    (strContains_mono_right _ _ _
      (strContains_append_right ("<p><small>Site: " ++ site env ++ " | ")
        (timestamp env)))

set_option maxRecDepth 4000 in
/-- C9 counterexample: the claim says the HTML rendering never adds data
absent from the plain text, but for a context whose `OMD_SITE` is
`"zq-site-7"` the HTML footer carries that site string while the plain text
does not contain it anywhere. -/
theorem claim_C9_counterexample :
    strContains
      (html_text ⟨none, none, none, some "zq-site-7", none, none, none, none,
        none, none, none, none, none, none, none⟩)
      (site ⟨none, none, none, some "zq-site-7", none, none, none, none,
        none, none, none, none, none, none, none⟩) ∧
    ¬ strContains
      (plain_text ⟨none, none, none, some "zq-site-7", none, none, none, none,
        none, none, none, none, none, none, none⟩)
      (site ⟨none, none, none, some "zq-site-7", none, none, none, none,
        none, none, none, none, none, none, none⟩) := by
  exact ⟨by decide, by decide⟩

/-- C9 (amended): both renderings carry the core semantic content — hostname,
both state codes of the transition, output text, emoji indicator, and the
service name when the kind is SERVICE — but the HTML rendering additionally
carries the site and timestamp fields, which the plain text omits. -/
theorem claim_C9 (env : Env) :
    (strContains (plain_text env) (hostname env) ∧
      strContains (html_text env) (hostname env)) ∧
    (strContains (plain_text env) (previous_state env) ∧
      strContains (html_text env) (previous_state env)) ∧
    (strContains (plain_text env) (state env) ∧
      strContains (html_text env) (state env)) ∧
    (strContains (plain_text env) (output env) ∧
      strContains (html_text env) (output env)) ∧
    (strContains (plain_text env) (get_emoji (state env)) ∧
      strContains (html_text env) (get_emoji (state env))) ∧
    (is_service env = true →
      strContains (plain_text env) (service_name env) ∧
      strContains (html_text env) (service_name env)) ∧
    strContains (html_text env) (site env) ∧
    strContains (html_text env) (timestamp env) :=
  ⟨⟨plain_contains_hostname env, html_contains_hostname env⟩,
   ⟨plain_contains_previous_state env, html_contains_previous_state env⟩,
   ⟨plain_contains_state env, html_contains_state env⟩,
   ⟨plain_contains_output env, html_contains_output env⟩,
   ⟨plain_contains_emoji env, html_contains_emoji env⟩,
   fun h =>
     ⟨strContains_trans _ _ _
        (pyJoin_contains "\n" _ _ (service_line_mem_plain_lines env h))
        (strContains_append_right "Service: " (service_name env)),
      strContains_trans _ _ _
        (pyJoin_contains "<br>" _ _ (service_line_mem_html_lines env h))
        (strContains_append_right "<b>Service:</b> " (service_name env))⟩,
   html_contains_site env, html_contains_timestamp env⟩

set_option maxRecDepth 4000 in
/-- Witness for C9 at a concrete service context: the service name occurs in
the plain text and the site occurs in the HTML. -/
theorem claim_C9_witness :
    strContains
      (plain_text ⟨some "SERVICE", none, none, some "mysite", none, none, none,
        none, some "CPU load", none, none, none, none, none, none⟩)
      (service_name ⟨some "SERVICE", none, none, some "mysite", none, none, none,
        none, some "CPU load", none, none, none, none, none, none⟩) ∧
    strContains
      (html_text ⟨some "SERVICE", none, none, some "mysite", none, none, none,
        none, some "CPU load", none, none, none, none, none, none⟩)
      (site ⟨some "SERVICE", none, none, some "mysite", none, none, none,
        none, some "CPU load", none, none, none, none, none, none⟩) := by
  have h := claim_C9 ⟨some "SERVICE", none, none, some "mysite", none, none, none,
    none, some "CPU load", none, none, none, none, none, none⟩
  exact ⟨(h.2.2.2.2.2.1 (by decide)).1, h.2.2.2.2.2.2.1⟩

/-! ### C7: percent-encoding of the room identifier -/

theorem char_toNat_lt (c : Char) : c.toNat < 1114112 := by
  rcases c with ⟨v, h⟩
  rcases h with h | ⟨_, h⟩ <;> · simp [Char.toNat]; omega

theorem utf8Bytes_lt (c : Char) : ∀ b ∈ utf8Bytes c, b < 256 := by
  intro b hb
  have hc := char_toNat_lt c
  by_cases h1 : c.toNat < 128
  · simp [utf8Bytes, h1] at hb; omega
  · by_cases h2 : c.toNat < 2048
    · simp [utf8Bytes, h1, h2] at hb; rcases hb with hb | hb <;> omega
    · by_cases h3 : c.toNat < 65536
      · simp [utf8Bytes, h1, h2, h3] at hb; rcases hb with hb | hb | hb <;> omega
      · simp [utf8Bytes, h1, h2, h3] at hb; rcases hb with hb | hb | hb | hb <;> omega

theorem hexUpperDigit_unreserved : ∀ d, d < 16 → isUnreserved (hexUpperDigit d) = true := by
  decide

theorem pctEncodeByte_chars (b : Nat) (hb : b < 256) :
    ∀ ch ∈ pctEncodeByte b, isUnreserved ch = true ∨ ch = '%' := by
  intro ch hch
  unfold pctEncodeByte at hch
  simp at hch
  rcases hch with hch | hch | hch
  · exact Or.inr hch
  · exact Or.inl (hch ▸ hexUpperDigit_unreserved (b / 16) (by omega))
  · exact Or.inl (hch ▸ hexUpperDigit_unreserved (b % 16) (by omega))

theorem quoteList_chars (l : List Char) :
    ∀ ch ∈ quoteList l, isUnreserved ch = true ∨ ch = '%' := by
  induction l with
  | nil => intro ch hch; cases hch
  | cons c cs ih =>
    intro ch hch
    unfold quoteList at hch
    rcases List.mem_append.mp hch with hch | hch
    · by_cases hc : isUnreserved c = true
      · rw [if_pos hc] at hch
        simp at hch
        exact Or.inl (hch ▸ hc)
      · rw [if_neg hc] at hch
        obtain ⟨b, hb, hchb⟩ := List.mem_flatMap.mp hch
        exact pctEncodeByte_chars b (utf8Bytes_lt c b hb) ch hchb
    · exact ih ch hch

/-- C7: the percent-encoding applied to the room identifier leaves only
unreserved characters (ASCII letters, digits, `-`, `.`, `_`, `~`) and the
escape marker `%` in its output; in particular no raw `!` or `:` survives
into the encoded room-id path segment. -/
theorem claim_C7 (room : String) :
    ('!' ∉ (quote room).data ∧ ':' ∉ (quote room).data) ∧
    ∀ ch ∈ (quote room).data, isUnreserved ch = true ∨ ch = '%' := by
  have hchars : ∀ ch ∈ (quote room).data, isUnreserved ch = true ∨ ch = '%' :=
    quoteList_chars room.data
  refine ⟨⟨fun h => ?_, fun h => ?_⟩, hchars⟩
  · rcases hchars '!' h with hc | hc <;> simp [isUnreserved] at hc
  · rcases hchars ':' h with hc | hc <;> simp [isUnreserved] at hc

/-- Witness for C7 at a concrete room identifier containing both `!` and `:`. -/
theorem claim_C7_witness :
    '!' ∉ (quote "!abc123:example.org").data ∧
    ':' ∉ (quote "!abc123:example.org").data :=
  (claim_C7 "!abc123:example.org").1

/-! ### C8: the request and the transaction identifier -/

theorem hexFixed_length (k u : Nat) : (hexFixed k u).length = k := by
  induction k generalizing u with
  | zero => rfl
  | succ k ih => simp [hexFixed, ih]

theorem hexFixed_append (n m u : Nat) :
    hexFixed (m + n) u = hexFixed m (u / 16 ^ n) ++ hexFixed n (u % 16 ^ n) := by
  induction n generalizing u with
  | zero => simp [hexFixed]
  | succ n ih =>
    show hexFixed (m + n + 1) u = _
    rw [hexFixed, ih (u / 16)]
    have e1 : u / 16 / 16 ^ n = u / 16 ^ (n + 1) := by
      rw [Nat.div_div_eq_div_mul, ← pow_succ']
    have e2 : u / 16 % 16 ^ n = u % 16 ^ (n + 1) / 16 := by
      rw [pow_succ', Nat.mod_mul_right_div_self]
    have e3 : u % 16 = u % 16 ^ (n + 1) % 16 := by
      rw [Nat.mod_mod_of_dvd u (dvd_pow_self 16 (Nat.succ_ne_zero n))]
    rw [e1, e2, e3, List.append_assoc]
    rfl

theorem isLowerHexChar_hexLowerDigit : ∀ d, d < 16 → isLowerHexChar (hexLowerDigit d) = true := by
  decide

theorem hexFixed_chars (k u : Nat) : ∀ ch ∈ hexFixed k u, isLowerHexChar ch = true := by
  induction k generalizing u with
  | zero => intro ch hch; cases hch
  | succ k ih =>
    intro ch hch
    rw [hexFixed] at hch
    rcases List.mem_append.mp hch with hch | hch
    · exact ih (u / 16) ch hch
    · rw [List.mem_singleton.mp hch]
      exact isLowerHexChar_hexLowerDigit (u % 16) (Nat.mod_lt u (by omega))

theorem hexCharVal_hexLowerDigit : ∀ d, d < 16 → hexCharVal (hexLowerDigit d) = d := by
  decide

theorem fromHexChars_hexFixed (k u : Nat) : fromHexChars (hexFixed k u) = u % 16 ^ k := by
  induction k generalizing u with
  | zero => simp [fromHexChars, hexFixed, Nat.mod_one]
  | succ k ih =>
    rw [hexFixed]
    have e1 : fromHexChars (hexFixed k (u / 16) ++ [hexLowerDigit (u % 16)]) =
        fromHexChars (hexFixed k (u / 16)) * 16 + hexCharVal (hexLowerDigit (u % 16)) := by
      unfold fromHexChars
      rw [List.foldl_append]
      rfl
    rw [e1, ih (u / 16), hexCharVal_hexLowerDigit (u % 16) (Nat.mod_lt u (by omega))]
    have e2 : u % 16 ^ (k + 1) = u % 16 + 16 * (u / 16 % 16 ^ k) := by
      rw [pow_succ', Nat.mod_mul]
    omega

theorem isLowerHexChar_ne_hyphen (ch : Char) (h : isLowerHexChar ch = true) :
    (ch != '-') = true := by
  refine bne_iff_ne.mpr fun hch => ?_
  rw [hch] at h
  exact absurd h (by decide)

theorem hexFixed_filter_hyphen (k u : Nat) :
    (hexFixed k u).filter (fun c => c != '-') = hexFixed k u :=
  List.filter_eq_self.mpr fun ch hch => isLowerHexChar_ne_hyphen ch (hexFixed_chars k u ch hch)

theorem filter_hyphen_cons (l : List Char) :
    ('-' :: l).filter (fun c => c != '-') = l.filter (fun c => c != '-') := by
  simp

theorem uuid4int_decomp (r : Nat) : ∃ hi mid lo,
    hi < 2 ^ 48 ∧ mid < 2 ^ 12 ∧ lo < 2 ^ 62 ∧
    uuid4int r = hi * 2 ^ 80 + 4 * 2 ^ 76 + mid * 2 ^ 64 + 2 ^ 63 + lo := by
  refine ⟨r % 2 ^ 128 / 2 ^ 80, r % 2 ^ 128 % 2 ^ 76 / 2 ^ 64, r % 2 ^ 128 % 2 ^ 62,
    by omega, by omega, by omega, ?_⟩
  simp only [uuid4int]
  omega

theorem pyUuidStr_canonical (u hi mid lo : Nat)
    (hhi : hi < 2 ^ 48) (hmid : mid < 2 ^ 12) (hlo : lo < 2 ^ 62)
    (hu : u = hi * 2 ^ 80 + 4 * 2 ^ 76 + mid * 2 ^ 64 + 2 ^ 63 + lo) :
    isCanonicalUuid4 (pyUuidStr u) ∧ uuidParse (pyUuidStr u) = u % 16 ^ 32 := by
  have h1 : hexFixed 32 u = hexFixed 8 (u / 16 ^ 24) ++ hexFixed 24 (u % 16 ^ 24) :=
    hexFixed_append 24 8 u
  have h2 : hexFixed 24 (u % 16 ^ 24) =
      hexFixed 4 (u % 16 ^ 24 / 16 ^ 20) ++ hexFixed 20 (u % 16 ^ 24 % 16 ^ 20) :=
    hexFixed_append 20 4 _
  have h3 : hexFixed 20 (u % 16 ^ 24 % 16 ^ 20) =
      hexFixed 4 (u % 16 ^ 24 % 16 ^ 20 / 16 ^ 16)
        ++ hexFixed 16 (u % 16 ^ 24 % 16 ^ 20 % 16 ^ 16) :=
    hexFixed_append 16 4 _
  have h4 : hexFixed 16 (u % 16 ^ 24 % 16 ^ 20 % 16 ^ 16) =
      hexFixed 4 (u % 16 ^ 24 % 16 ^ 20 % 16 ^ 16 / 16 ^ 12)
        ++ hexFixed 12 (u % 16 ^ 24 % 16 ^ 20 % 16 ^ 16 % 16 ^ 12) :=
    hexFixed_append 12 4 _
  have t8 : (hexFixed 32 u).take 8 = hexFixed 8 (u / 16 ^ 24) := by
    rw [h1]; exact List.take_left' (hexFixed_length 8 _)
  have d8 : (hexFixed 32 u).drop 8 = hexFixed 24 (u % 16 ^ 24) := by
    rw [h1]; exact List.drop_left' (hexFixed_length 8 _)
  have t12 : ((hexFixed 32 u).drop 8).take 4 = hexFixed 4 (u % 16 ^ 24 / 16 ^ 20) := by
    rw [d8, h2]; exact List.take_left' (hexFixed_length 4 _)
  have d12 : (hexFixed 32 u).drop 12 = hexFixed 20 (u % 16 ^ 24 % 16 ^ 20) := by
    have e1 : List.drop 4 (List.drop 8 (hexFixed 32 u)) = List.drop 12 (hexFixed 32 u) :=
      List.drop_drop 4 8 _
    rw [← e1, d8, h2]
    exact List.drop_left' (hexFixed_length 4 _)
  have t16 : ((hexFixed 32 u).drop 12).take 4 =
      hexFixed 4 (u % 16 ^ 24 % 16 ^ 20 / 16 ^ 16) := by
    rw [d12, h3]; exact List.take_left' (hexFixed_length 4 _)
  have d16 : (hexFixed 32 u).drop 16 = hexFixed 16 (u % 16 ^ 24 % 16 ^ 20 % 16 ^ 16) := by
    have e1 : List.drop 4 (List.drop 12 (hexFixed 32 u)) = List.drop 16 (hexFixed 32 u) :=
      List.drop_drop 4 12 _
    rw [← e1, d12, h3]
    exact List.drop_left' (hexFixed_length 4 _)
  have t20 : ((hexFixed 32 u).drop 16).take 4 =
      hexFixed 4 (u % 16 ^ 24 % 16 ^ 20 % 16 ^ 16 / 16 ^ 12) := by
    rw [d16, h4]; exact List.take_left' (hexFixed_length 4 _)
  have d20 : (hexFixed 32 u).drop 20 =
      hexFixed 12 (u % 16 ^ 24 % 16 ^ 20 % 16 ^ 16 % 16 ^ 12) := by
    have e1 : List.drop 4 (List.drop 16 (hexFixed 32 u)) = List.drop 20 (hexFixed 32 u) :=
      List.drop_drop 4 16 _
    rw [← e1, d16, h4]
    exact List.drop_left' (hexFixed_length 4 _)
  have hdata : (pyUuidStr u).data =
      (hexFixed 32 u).take 8 ++ '-' :: (((hexFixed 32 u).drop 8).take 4
        ++ '-' :: (((hexFixed 32 u).drop 12).take 4
          ++ '-' :: (((hexFixed 32 u).drop 16).take 4
            ++ '-' :: (hexFixed 32 u).drop 20))) := rfl
  rw [t8, t12, t16, t20, d20] at hdata
  have hver : u % 16 ^ 24 % 16 ^ 20 / 16 ^ 16 / 16 ^ 3 % 16 = 4 := by subst hu; omega
  have hcgroup : hexFixed 4 (u % 16 ^ 24 % 16 ^ 20 / 16 ^ 16) =
      hexLowerDigit (u % 16 ^ 24 % 16 ^ 20 / 16 ^ 16 / 16 ^ 3 % 16)
        :: hexFixed 3 (u % 16 ^ 24 % 16 ^ 20 / 16 ^ 16 % 16 ^ 3) :=
    hexFixed_append 3 1 _
  have hdgroup : hexFixed 4 (u % 16 ^ 24 % 16 ^ 20 % 16 ^ 16 / 16 ^ 12) =
      hexLowerDigit (u % 16 ^ 24 % 16 ^ 20 % 16 ^ 16 / 16 ^ 12 / 16 ^ 3 % 16)
        :: hexFixed 3 (u % 16 ^ 24 % 16 ^ 20 % 16 ^ 16 / 16 ^ 12 % 16 ^ 3) :=
    hexFixed_append 3 1 _
  have hvar : u % 16 ^ 24 % 16 ^ 20 % 16 ^ 16 / 16 ^ 12 / 16 ^ 3 % 16 = 8 + lo / 2 ^ 60 ∧
      lo / 2 ^ 60 < 4 := by subst hu; exact ⟨by omega, by omega⟩
  constructor
  · refine ⟨hexFixed 8 (u / 16 ^ 24), hexFixed 4 (u % 16 ^ 24 / 16 ^ 20),
      hexFixed 4 (u % 16 ^ 24 % 16 ^ 20 / 16 ^ 16),
      hexFixed 4 (u % 16 ^ 24 % 16 ^ 20 % 16 ^ 16 / 16 ^ 12),
      hexFixed 12 (u % 16 ^ 24 % 16 ^ 20 % 16 ^ 16 % 16 ^ 12),
      hdata, hexFixed_length 8 _, hexFixed_length 4 _, hexFixed_length 4 _,
      hexFixed_length 4 _, hexFixed_length 12 _, ?_, ?_, ?_⟩
    · intro ch hch
      rcases List.mem_append.mp hch with hch | hch
      · rcases List.mem_append.mp hch with hch | hch
        · rcases List.mem_append.mp hch with hch | hch
          · rcases List.mem_append.mp hch with hch | hch
            · exact hexFixed_chars 8 _ ch hch
            · exact hexFixed_chars 4 _ ch hch
          · exact hexFixed_chars 4 _ ch hch
        · exact hexFixed_chars 4 _ ch hch
      · exact hexFixed_chars 12 _ ch hch
    · rw [hcgroup, hver]
      exact congrArg some (by decide)
    · refine ⟨hexLowerDigit (u % 16 ^ 24 % 16 ^ 20 % 16 ^ 16 / 16 ^ 12 / 16 ^ 3 % 16),
        by rw [hdgroup]; rfl, ?_⟩
      obtain ⟨hv1, hv2⟩ := hvar
      have hk : u % 16 ^ 24 % 16 ^ 20 % 16 ^ 16 / 16 ^ 12 / 16 ^ 3 % 16 = 8 ∨
          u % 16 ^ 24 % 16 ^ 20 % 16 ^ 16 / 16 ^ 12 / 16 ^ 3 % 16 = 9 ∨
          u % 16 ^ 24 % 16 ^ 20 % 16 ^ 16 / 16 ^ 12 / 16 ^ 3 % 16 = 10 ∨
          u % 16 ^ 24 % 16 ^ 20 % 16 ^ 16 / 16 ^ 12 / 16 ^ 3 % 16 = 11 := by omega
      rcases hk with hk | hk | hk | hk <;> rw [hk] <;> decide
  · rw [uuidParse]
    have hfilter : (pyUuidStr u).data.filter (fun c => c != '-') = hexFixed 32 u := by
      rw [hdata, List.filter_append, hexFixed_filter_hyphen, filter_hyphen_cons,
        List.filter_append, hexFixed_filter_hyphen, filter_hyphen_cons,
        List.filter_append, hexFixed_filter_hyphen, filter_hyphen_cons,
        List.filter_append, hexFixed_filter_hyphen, filter_hyphen_cons,
        hexFixed_filter_hyphen, ← h4, ← h3, ← h2, ← h1]
    rw [hfilter, fromHexChars_hexFixed]

/-- C8: every delivery attempt issues exactly one HTTP PUT whose URL is
`https://{homeserver}/_matrix/client/v3/rooms/{encodedRoomId}/send/m.room.message/{txnId}`,
with the JSON body `{msgtype, body, format, formatted_body}`, the
`Content-Type` and `Bearer` headers, and the fixed 15-second timeout; the
transaction id is the canonical hyphenated lowercase-hex rendering of a
version-4 UUID built from the 128 random bits, and the rendering is
lossless (`uuidParse` recovers the UUID integer), so distinct UUID values
give distinct transaction ids across invocations. -/
theorem claim_C8 (homeserver access_token room_id plain html : String)
    (r : Nat) (outcome : TransportOutcome) :
    (send_to_matrix homeserver access_token room_id plain html r outcome).request =
      ⟨"PUT",
       "https://" ++ homeserver ++ "/_matrix/client/v3/rooms/" ++ quote room_id
         ++ "/send/m.room.message/" ++ uuid4str r,
       [("Content-Type", "application/json"),
        ("Authorization", "Bearer " ++ access_token)],
       ⟨"m.text", plain, "org.matrix.custom.html", html⟩,
       15⟩ ∧
    isCanonicalUuid4 (uuid4str r) ∧
    uuidParse (uuid4str r) = uuid4int r ∧
    uuid4int r < 2 ^ 128 := by
  obtain ⟨hi, mid, lo, hhi, hmid, hlo, hu⟩ := uuid4int_decomp r
  have hlt : uuid4int r < 2 ^ 128 := by omega
  have hps := pyUuidStr_canonical (uuid4int r) hi mid lo hhi hmid hlo hu
  refine ⟨?_, hps.1, ?_, hlt⟩
  · cases outcome with
    | response s =>
      cases hrs : raise_for_status s <;> simp [send_to_matrix, hrs, REQUEST_TIMEOUT]
    | timeout => rfl
    | connectionError m => rfl
    | requestException m => rfl
  · rw [show uuidParse (uuid4str r) = uuid4int r % 16 ^ 32 from hps.2]
    exact Nat.mod_eq_of_lt (by omega)

/-- Witness for C8 at concrete inputs: the URL of the one request issued, and
the losslessness of the transaction-id rendering for one random draw. -/
theorem claim_C8_witness :
    (send_to_matrix "matrix.example.org" "token123" "!room:example.org" "p" "h" 5
      TransportOutcome.timeout).request.url =
      "https://" ++ "matrix.example.org" ++ "/_matrix/client/v3/rooms/"
        ++ quote "!room:example.org" ++ "/send/m.room.message/" ++ uuid4str 5 ∧
    uuidParse (uuid4str 5) = uuid4int 5 := by
  have h := claim_C8 "matrix.example.org" "token123" "!room:example.org" "p" "h" 5
    TransportOutcome.timeout
  exact ⟨by rw [h.1], h.2.2.1⟩

end CheckmkMatrixNotify
